import Mathlib

/-!
Shallow embedding of the `revenue-api` boilerplate (files `server.py` and
`api.py`). Routers, the application object and the `Server` class are
modelled as Lean structures; methods whose Python originals may raise
`RuntimeError` return `Except String`. Object identity of the application
and of the root router (needed to distinguish in-place mutation from field
reassignment) is modelled by an `objId` field that construction assigns
and that no operation changes.
-/

/-- A registered route: HTTP method, full path (the router prefix is baked
into the path at registration time, as FastAPI does), the handler name and
the accumulated tags. -/
structure Route where
  method : String
  path : String
  handler : String
  tags : List String
deriving Repr, DecidableEq

/-- Model of `fastapi.APIRouter`: its prefix string, its tags and the list
of routes registered so far. `objId` models Python object identity. -/
structure APIRouter where
  objId : Nat
  pfx : String
  tags : List String
  routes : List Route
deriving Repr, DecidableEq

/-- `APIRouter(prefix=..., tags=...)`. -/
def APIRouter.create (objId : Nat) (pfx : String) (tags : List String) : APIRouter :=
  { objId := objId, pfx := pfx, tags := tags, routes := [] }

/-- `router.get(path)` applied to a handler: registers a GET route whose
stored path is the router prefix concatenated with `path`. -/
def APIRouter.get (r : APIRouter) (path : String) (handler : String) : APIRouter :=
  { r with routes := r.routes ++ [⟨"GET", r.pfx ++ path, handler, r.tags⟩] }

/-- `self.include_router(other, prefix=pfx, tags=tags)`: every route of
`other` (whose stored path already carries `other`'s own prefix) is copied
into `self` with path `self.prefix + pfx + route.path` and the extra tags
prepended. -/
def APIRouter.include_router (self other : APIRouter) (pfx : String) (tags : List String) : APIRouter :=
  { self with
    routes := self.routes ++ other.routes.map
      (fun rt => { rt with path := self.pfx ++ pfx ++ rt.path, tags := self.tags ++ tags ++ rt.tags }) }

/-- Model of the `fastapi.FastAPI` application object: the constructor
arguments used in `Server.__init__`, the routes included into the app, and
the names of middleware and exception handlers registered on it. `objId`
models Python object identity. -/
structure FastAPI where
  objId : Nat
  title : String
  description : String
  version : String
  debug : Bool
  docs_url : String
  redoc_url : String
  openapi_url : String
  routes : List Route
  middleware : List String
  exception_handlers : List String
deriving Repr, DecidableEq

/-- `app.include_router(router)` with no prefix argument: the router's
routes are appended to the app's routes with their stored paths. -/
def FastAPI.include_router (a : FastAPI) (r : APIRouter) : FastAPI :=
  { a with routes := a.routes ++ r.routes }

/-- `app.add_middleware(cls, ...)`, recorded by class name. -/
def FastAPI.add_middleware (a : FastAPI) (cls : String) : FastAPI :=
  { a with middleware := a.middleware ++ [cls] }

/-- `@app.exception_handler(excType)`, recorded by exception type name. -/
def FastAPI.add_exception_handler (a : FastAPI) (excType : String) : FastAPI :=
  { a with exception_handlers := a.exception_handlers ++ [excType] }

/-- The `Server` class of `server.py`: configuration fields assigned in
`__init__`, the application object (`Optional` because every method guards
`self.app is None`), and the root router. -/
structure Server where
  _title : String
  _description : String
  _version : String
  _debug : Bool
  app : Option FastAPI
  root_router : APIRouter
deriving Repr, DecidableEq

/-- The message of the `RuntimeError` raised by the `self.app is None`
guards. -/
def appNotCreatedMsg : String := "Application not created. Call create_app() first."

/-- The `FastAPI(...)` object constructed in `Server.__init__`: the
configuration arguments together with the documentation URLs of the
source, and empty routes, middleware and exception handlers. -/
def initialApp (title description version : String) (debug : Bool) : FastAPI :=
  { objId := 0
    title := title
    description := description
    version := version
    debug := debug
    docs_url := "/api/docs"
    redoc_url := "/api/redoc"
    openapi_url := "/api/openapi.json"
    routes := []
    middleware := []
    exception_handlers := [] }

/-- The `APIRouter(prefix="/api", tags=["API"])` constructed in
`Server.__init__`. -/
def initialRootRouter : APIRouter := APIRouter.create 1 "/api" ["API"]

/-- `Server.__init__(title, description, version, debug)`: stores the four
configuration fields, unconditionally assigns `self.app` to a fresh
`FastAPI(...)`, and assigns `self.root_router` to a fresh
`APIRouter(prefix="/api", tags=["API"])`. -/
def Server.init (title description version : String) (debug : Bool) : Server :=
  { _title := title
    _description := description
    _version := version
    _debug := debug
    app := some (initialApp title description version debug)
    root_router := initialRootRouter }

/-- `Server()` with the default arguments of `__init__`. -/
def Server.default : Server :=
  Server.init "template API"
    "Workflow API for template processing with FastAPI and Celery" "0.1.0" false

/-- `Server._startup`: prints a message and returns; the server state is
unchanged. The returned string is the printed line. -/
def Server._startup (s : Server) : Server × String :=
  (s, "🚀 " ++ s._title ++ " starting up...")

/-- `Server._shutdown`: prints a message and returns; the server state is
unchanged. The returned string is the printed line. -/
def Server._shutdown (s : Server) : Server × String :=
  (s, "🛑 " ++ s._title ++ " shutting down...")

/-- The observable events of one run of the `_lifespan` context manager. -/
inductive LifespanEvent where
  | startupCall
  | yieldControl
  | shutdownCall
deriving Repr, DecidableEq

/-- `Server._lifespan`: awaits `_startup`, yields control for the
application lifetime, then awaits `_shutdown`. Returns the ordered event
trace, the final server state and the printed lines. -/
def Server._lifespan (s : Server) : List LifespanEvent × Server × List String :=
  let r1 := s._startup
  let r2 := r1.1._shutdown
  ([LifespanEvent.startupCall, LifespanEvent.yieldControl, LifespanEvent.shutdownCall],
   r2.1, [r1.2, r2.2])

/-- `Server.add_router(router, path, tags)`: raises when `self.app` is
`None`, otherwise includes `router` into the root router under prefix
`path`; the app itself is untouched. -/
def Server.add_router (s : Server) (router : APIRouter) (path : String) (tags : List String) :
    Except String Server :=
  match s.app with
  | none => Except.error appNotCreatedMsg
  | some _ => Except.ok { s with root_router := s.root_router.include_router router path tags }

/-- `Server.get_root_router`: returns `self.root_router`. -/
def Server.get_root_router (s : Server) : APIRouter := s.root_router

/-- `Server.get_app`: raises when `self.app` is `None`, otherwise returns
`self.app` (the same reference assigned in `__init__`). -/
def Server.get_app (s : Server) : Except String FastAPI :=
  match s.app with
  | none => Except.error appNotCreatedMsg
  | some a => Except.ok a

/-- `Server._setup_routers`: raises when `self.app` is `None`, otherwise
includes the root router into the app (an in-place mutation of the app
object, so the app keeps its identity). -/
def Server._setup_routers (s : Server) : Except String Server :=
  match s.app with
  | none => Except.error appNotCreatedMsg
  | some a => Except.ok { s with app := some (a.include_router s.root_router) }

/-- What `uvicorn.run` was called with: the run target is either an import
string (reload mode) or the application object itself. -/
structure UvicornRun where
  target : Sum String FastAPI
  host : String
  port : Nat
  reload : Bool
  log_level : String
deriving Repr, DecidableEq

/-- `Server.start_server(host, port, reload, log_level, import_string)`:
raises when `self.app` is `None`; otherwise calls `self._setup_routers()`
and then `uvicorn.run` — with the import string and `reload=reload` when
`reload` is true, and with the (set-up) app object and `reload=False`
otherwise. Returns the post-setup server and the recorded run call. -/
def Server.start_server (s : Server) (host : String) (port : Nat) (reload : Bool)
    (log_level : String) (import_string : String) : Except String (Server × UvicornRun) :=
  match s.app with
  | none => Except.error appNotCreatedMsg
  | some a =>
    let a2 := a.include_router s.root_router
    let s2 := { s with app := some a2 }
    if reload then
      Except.ok (s2, { target := Sum.inl import_string, host := host, port := port,
                       reload := reload, log_level := log_level })
    else
      Except.ok (s2, { target := Sum.inr a2, host := host, port := port,
                       reload := false, log_level := log_level })

/-! ## The `api.py` module -/

/-- The body returned by the `root` handler (`GET /` on the root router):
built from the module-level server's `_title` and `_version`; the handler
takes no request data. -/
def rootHandlerBody (s : Server) : List (String × String) :=
  [("service", s._title), ("status", "operational"), ("version", s._version)]

/-- The body returned by the `health_check` handler (`GET /health` on the
root router): a literal status, a literal service name and the server's
`_version`; the handler takes no request data. -/
def healthHandlerBody (s : Server) : List (String × String) :=
  [("status", "healthy"), ("service", "template-api"), ("version", s._version)]

/-- A `JSONResponse` as produced by the exception handlers. -/
structure JSONResponse where
  status_code : Nat
  content : List (String × String)
deriving Repr, DecidableEq

/-- `value_error_handler(request, exc)`: 400 with the error kind, the
exception's message and the literal type name. -/
def value_error_handler (excMsg : String) : JSONResponse :=
  { status_code := 400
    content := [("error", "Validation Error"), ("detail", excMsg), ("type", "ValueError")] }

/-- `general_exception_handler(request, exc)`: prints the exception
message server-side (the first component) and responds 500 with a fixed
detail string and the exception's class name (the second component). -/
def general_exception_handler (excType : String) (excMsg : String) : String × JSONResponse :=
  ("Unexpected error: " ++ excMsg,
   { status_code := 500
     content := [("error", "Internal Server Error"),
                 ("detail", "An unexpected error occurred"),
                 ("type", excType)] })

/-- Dispatch of a raised exception (given by class name and message) to the
two handlers registered in `api.py`: a `ValueError` goes to
`value_error_handler`, every other exception to the catch-all
`general_exception_handler`. -/
def dispatchException (excType : String) (excMsg : String) : JSONResponse :=
  if excType = "ValueError" then value_error_handler excMsg
  else (general_exception_handler excType excMsg).2

/-- The module-level initialization of `api.py`: `server = Server()`, a
discarded `server.get_app()` call, the CORS middleware, the two exception
handlers, and the two `@root_router.get` registrations (`/` with handler
`root`, then `/health` with handler `health_check`) on the router returned
by `server.get_root_router()`. -/
def apiServer : Server :=
  let s := Server.default
  let s := { s with app := s.app.map (fun a : FastAPI => a.add_middleware "CORSMiddleware") }
  let s := { s with app := s.app.map (fun a : FastAPI => a.add_exception_handler "ValueError") }
  let s := { s with app := s.app.map (fun a : FastAPI => a.add_exception_handler "Exception") }
  { s with root_router := (s.root_router.get "/" "root").get "/health" "health_check" }

/-- `argparse` semantics of a `store_true` argument with the given
`default`: the parsed value is `True` when the flag is on the command line
and the default otherwise. -/
def storeTrue (dflt : Bool) (flagGiven : Bool) : Bool :=
  if flagGiven then true else dflt

/-- The parsed `args.reload` (`store_true`, `default=True`). -/
def argsReload (reloadFlagGiven : Bool) : Bool := storeTrue true reloadFlagGiven

/-- The parsed `args.no_reload` (`store_true`, default `False`). -/
def argsNoReload (noReloadFlagGiven : Bool) : Bool := storeTrue false noReloadFlagGiven

/-- `reload = not args.no_reload if args.no_reload else args.reload`. -/
def resolveReload (argsReloadV : Bool) (argsNoReloadV : Bool) : Bool :=
  if argsNoReloadV then !argsNoReloadV else argsReloadV

/-- The `__main__` block of `api.py`: resolves the reload flag from the
parsed arguments and calls `server.start_server` with the parsed host,
port, resolved reload, log level and import string. -/
def mainRun (host : String) (port : Nat) (reloadFlagGiven noReloadFlagGiven : Bool)
    (log_level : String) (import_string : String) : Except String (Server × UvicornRun) :=
  let reload := resolveReload (argsReload reloadFlagGiven) (argsNoReload noReloadFlagGiven)
  apiServer.start_server host port reload log_level import_string

/-! ## Auxiliary definitions for the theorems -/

/-- The routes of the application object after `api.py` module
initialization followed by `_setup_routers` (as `start_server` performs
before running uvicorn); empty in the unreachable error cases. -/
def apiAppRoutes : List Route :=
  match apiServer._setup_routers with
  | Except.ok s =>
    match s.app with
    | some a => a.routes
    | none => []
  | Except.error _ => []

/-- The servers reachable from `Server.__init__` by the state-changing
public operations (successful `add_router`, `_setup_routers`,
`start_server` calls). -/
inductive Reached : Server → Prop where
  | init : ∀ t d v b, Reached (Server.init t d v b)
  | add : ∀ {s s2 : Server} (r : APIRouter) (p : String) (tg : List String),
      Reached s → s.add_router r p tg = Except.ok s2 → Reached s2
  | setup : ∀ {s s2 : Server}, Reached s → s._setup_routers = Except.ok s2 → Reached s2
  | start : ∀ {s s2 : Server} {u : UvicornRun} (h : String) (p : Nat) (r : Bool) (ll istr : String),
      Reached s → s.start_server h p r ll istr = Except.ok (s2, u) → Reached s2

/-- A server whose `app` field is `None`, exercising the error branches of
the guarded methods. -/
def brokenServer : Server := { Server.default with app := none }

/-- The configuration-and-identity view of a server: the four fields set
in `__init__` together with the object identities of `app` and
`root_router`. A field reassignment would change this view; in-place
mutation of the app or router contents does not. -/
def Server.configView (s : Server) : String × String × String × Bool × Option Nat × Nat :=
  (s._title, s._description, s._version, s._debug, s.app.map FastAPI.objId, s.root_router.objId)

/-- A sample router used to instantiate universally quantified theorems. -/
def sampleRouter : APIRouter := (APIRouter.create 2 "" ["items"]).get "/items" "list_items"

/-- The server produced by `apiServer.add_router sampleRouter "/v1" ["v1"]`. -/
def addRouterResult : Server :=
  { Server.default with
    root_router := Server.default.root_router.include_router sampleRouter "/v1" ["v1"] }

/-! ## Claims -/

/-- C1, counterexample: after route setup, the application's registered
route paths are `/api/` and `/api/health` (the root router carries prefix
`/api`), so no route is registered at `/` or `/health` and a GET request
to `/` is not routed to any handler. -/
theorem c1_counterexample :
    apiAppRoutes.map Route.path = ["/api/", "/api/health"] ∧
    "/" ∉ apiAppRoutes.map Route.path ∧
    "/health" ∉ apiAppRoutes.map Route.path := by
  refine ⟨rfl, ?_, ?_⟩ <;> decide

/-- C1, amended: the application exposes exactly two endpoints, registered
on the root router (prefix `/api`) at relative paths `/` and `/health`;
after route setup a GET request to `/api/` is routed to the `root` handler
and a GET request to `/api/health` to the `health_check` handler, and no
other repository-registered route exists. -/
theorem c1_two_endpoints :
    apiServer.root_router.pfx = "/api" ∧
    apiAppRoutes =
      [{ method := "GET", path := "/api/", handler := "root", tags := ["API"] },
       { method := "GET", path := "/api/health", handler := "health_check", tags := ["API"] }] :=
  ⟨rfl, rfl⟩

/-- C2: for the default-constructed server of `api.py`, the `root` handler
returns exactly the service/status/version body and the `health_check`
handler exactly the status/service/version body; the handlers take no
request data, so the bodies are independent of the request. -/
theorem c2_fixed_bodies :
    rootHandlerBody apiServer =
      [("service", "template API"), ("status", "operational"), ("version", "0.1.0")] ∧
    healthHandlerBody apiServer =
      [("status", "healthy"), ("service", "template-api"), ("version", "0.1.0")] :=
  ⟨rfl, rfl⟩

/-- C3: the resolved reload flag is `False` exactly when `--no-reload` is
passed and `True` in every other case (whether or not `--reload` is
passed), and the `__main__` block calls `start_server` with exactly the
parsed host, port, resolved reload, log level and import string. -/
theorem c3_cli_reload (host : String) (port : Nat) (r n : Bool) (ll istr : String) :
    resolveReload (argsReload r) (argsNoReload n) = !n ∧
    mainRun host port r n ll istr = apiServer.start_server host port (!n) ll istr := by
  have h1 : resolveReload (argsReload r) (argsNoReload n) = !n := by
    cases n <;> cases r <;> rfl
  exact ⟨h1, by simp [mainRun, h1]⟩


/-- A successful `add_router` call leaves every field but the root router
unchanged and includes the given router into the root router. -/
theorem add_router_ok {s s2 : Server} {r : APIRouter} {p : String} {tg : List String}
    (h : s.add_router r p tg = Except.ok s2) :
    s2 = { s with root_router := s.root_router.include_router r p tg } := by
  unfold Server.add_router at h
  cases ha : s.app with
  | none => rw [ha] at h; cases h
  | some a => rw [ha] at h; cases h; rfl

/-- A successful `_setup_routers` call includes the root router into the
app and changes nothing else. -/
theorem setup_routers_ok {s s2 : Server} (h : s._setup_routers = Except.ok s2) :
    ∃ a, s.app = some a ∧ s2 = { s with app := some (a.include_router s.root_router) } := by
  unfold Server._setup_routers at h
  cases ha : s.app with
  | none => rw [ha] at h; cases h
  | some a => rw [ha] at h; cases h; exact ⟨a, rfl, rfl⟩

/-- A successful `start_server` call returns the server after
`_setup_routers`. -/
theorem start_server_ok {s s2 : Server} {u : UvicornRun} {host : String} {port : Nat}
    {reload : Bool} {ll istr : String}
    (h : s.start_server host port reload ll istr = Except.ok (s2, u)) :
    ∃ a, s.app = some a ∧ s2 = { s with app := some (a.include_router s.root_router) } := by
  unfold Server.start_server at h
  cases ha : s.app with
  | none => rw [ha] at h; cases h
  | some a =>
    rw [ha] at h
    refine ⟨a, rfl, ?_⟩
    cases reload with
    | false => simp only [Bool.false_eq_true, if_false] at h; cases h; rfl
    | true => simp only [if_true] at h; cases h; rfl

/-- C4: each of `add_router`, `get_app`, `_setup_routers` and
`start_server` raises the `RuntimeError` message when `self.app` is
`None`, and on every server reachable from `__init__` the `app` field is
never `None`, so the error branch is unreachable. -/
theorem c4_null_guards :
    (∀ s : Server, s.app = none →
      s.get_app = Except.error appNotCreatedMsg ∧
      (∀ r p tg, s.add_router r p tg = Except.error appNotCreatedMsg) ∧
      s._setup_routers = Except.error appNotCreatedMsg ∧
      (∀ h p rl ll istr, s.start_server h p rl ll istr = Except.error appNotCreatedMsg)) ∧
    (∀ s : Server, Reached s → s.app ≠ none) := by
  constructor
  · intro s hnone
    refine ⟨?_, fun r p tg => ?_, ?_, fun h p rl ll istr => ?_⟩ <;>
      simp [Server.get_app, Server.add_router, Server._setup_routers, Server.start_server, hnone]
  · intro s hs
    induction hs with
    | init t d v b => simp [Server.init]
    | add r p tg hr hok ih => rw [add_router_ok hok]; exact ih
    | setup hr hok ih =>
      obtain ⟨a, ha, rfl⟩ := setup_routers_ok hok
      simp
    | start h p r ll istr hr hok ih =>
      obtain ⟨a, ha, rfl⟩ := start_server_ok hok
      simp

/-- C4, witness: on a server whose app is `None` the guard of `get_app`
fires, and the default-constructed server is reachable with a non-`None`
app. -/
theorem c4_null_guards_witness :
    brokenServer.get_app = Except.error appNotCreatedMsg ∧ Server.default.app ≠ none :=
  ⟨(c4_null_guards.1 brokenServer rfl).1,
   c4_null_guards.2 Server.default
     (Reached.init "template API"
       "Workflow API for template processing with FastAPI and Celery" "0.1.0" false)⟩

/-- C5: `start_server` forwards its arguments unchanged to `uvicorn.run`:
host, port and log level are passed as given; the run target is the import
string with `reload=True` when reload is enabled and the (set-up) app
object with `reload=False` otherwise; `_setup_routers` runs first, and the
returned server is exactly its result. -/
theorem c5_start_forwards (s : Server) (a : FastAPI) (ha : s.app = some a)
    (host : String) (port : Nat) (reload : Bool) (ll istr : String) :
    ∃ s2 run, s.start_server host port reload ll istr = Except.ok (s2, run) ∧
      s._setup_routers = Except.ok s2 ∧
      run.host = host ∧ run.port = port ∧ run.log_level = ll ∧ run.reload = reload ∧
      run.target = (if reload then Sum.inl istr
        else Sum.inr (a.include_router s.root_router)) := by
  cases reload with
  | true =>
    exact ⟨{ s with app := some (a.include_router s.root_router) },
           { target := Sum.inl istr, host := host, port := port, reload := true, log_level := ll },
           by simp [Server.start_server, ha], by simp [Server._setup_routers, ha],
           rfl, rfl, rfl, rfl, rfl⟩
  | false =>
    exact ⟨{ s with app := some (a.include_router s.root_router) },
           { target := Sum.inr (a.include_router s.root_router), host := host, port := port,
             reload := false, log_level := ll },
           by simp [Server.start_server, ha], by simp [Server._setup_routers, ha],
           rfl, rfl, rfl, rfl, rfl⟩

/-- C5, witness: the default server started in reload mode with the default
CLI arguments. -/
theorem c5_start_forwards_witness :
    ∃ s2 run,
      Server.default.start_server "0.0.0.0" 8000 true "info" "api:server.app" =
        Except.ok (s2, run) ∧
      Server.default._setup_routers = Except.ok s2 ∧
      run.host = "0.0.0.0" ∧ run.port = 8000 ∧ run.log_level = "info" ∧ run.reload = true ∧
      run.target = (if true then Sum.inl "api:server.app"
        else Sum.inr ((initialApp "template API"
          "Workflow API for template processing with FastAPI and Celery" "0.1.0"
          false).include_router Server.default.root_router)) :=
  c5_start_forwards Server.default
    (initialApp "template API"
      "Workflow API for template processing with FastAPI and Celery" "0.1.0" false)
    rfl "0.0.0.0" 8000 true "info" "api:server.app"

/-- C6: one run of the lifespan context produces exactly the event trace
startup, yield, shutdown (each hook called exactly once, in that order),
leaves the server state unchanged (as do `_startup` and `_shutdown`
individually), and only prints the two messages. -/
theorem c6_lifespan (s : Server) :
    (s._lifespan).1 =
      [LifespanEvent.startupCall, LifespanEvent.yieldControl, LifespanEvent.shutdownCall] ∧
    (s._lifespan).2.1 = s ∧ (s._startup).1 = s ∧ (s._shutdown).1 = s ∧
    (s._lifespan).2.2 =
      ["🚀 " ++ s._title ++ " starting up...", "🛑 " ++ s._title ++ " shutting down..."] :=
  ⟨rfl, rfl, rfl, rfl, rfl⟩

/-- C7: `get_app` returns exactly the application object assigned in
`__init__` and `get_root_router` exactly the root router assigned there;
in general each getter returns the stored field unchanged (so repeated
calls return the same object), and being pure functions of the server they
modify no state. -/
theorem c7_getters (t d v : String) (b : Bool) :
    (Server.init t d v b).get_app = Except.ok (initialApp t d v b) ∧
    (Server.init t d v b).get_root_router = initialRootRouter ∧
    (∀ s : Server, s.get_root_router = s.root_router) ∧
    (∀ (s : Server) (a : FastAPI), s.app = some a → s.get_app = Except.ok a) := by
  refine ⟨rfl, rfl, fun s => rfl, fun s a ha => ?_⟩
  simp [Server.get_app, ha]

/-- C7, witness: the default server's `get_app` returns the application
constructed in `__init__`. -/
theorem c7_getters_witness :
    Server.default.get_app = Except.ok (initialApp "template API"
      "Workflow API for template processing with FastAPI and Celery" "0.1.0" false) :=
  (c7_getters "template API"
    "Workflow API for template processing with FastAPI and Celery" "0.1.0" false).2.2.2
    Server.default
    (initialApp "template API"
      "Workflow API for template processing with FastAPI and Celery" "0.1.0" false) rfl

/-- C8: a raised `ValueError` yields a 400 response carrying the
exception's message, and any other exception yields a 500 response whose
detail is the fixed string and whose type field is the exception's class
name; the 500 response does not depend on the exception's message, so the
original message is never exposed there. -/
theorem c8_exception_handlers (msg t : String) (ht : t ≠ "ValueError") :
    dispatchException "ValueError" msg =
      { status_code := 400,
        content := [("error", "Validation Error"), ("detail", msg), ("type", "ValueError")] } ∧
    dispatchException t msg =
      { status_code := 500,
        content := [("error", "Internal Server Error"),
                    ("detail", "An unexpected error occurred"), ("type", t)] } ∧
    dispatchException t msg = dispatchException t "" := by
  refine ⟨rfl, ?_, ?_⟩ <;>
    simp [dispatchException, ht, general_exception_handler]

/-- C8, witness: a `TypeError` with message "boom" produces the fixed 500
response. -/
theorem c8_exception_handlers_witness :
    dispatchException "TypeError" "boom" =
      { status_code := 500,
        content := [("error", "Internal Server Error"),
                    ("detail", "An unexpected error occurred"), ("type", "TypeError")] } :=
  (c8_exception_handlers "boom" "TypeError" (by decide)).2.1

/-- C9: `add_router` never touches the app: it includes the given router
into the root router, whose routes then live under `/api` followed by the
given path, and those routes only reach the application once
`_setup_routers` (run inside `start_server`) includes the root router into
the app. -/
theorem c9_add_router (s : Server) (a : FastAPI) (ha : s.app = some a)
    (hp : s.root_router.pfx = "/api") (r : APIRouter) (p : String) (tg : List String) :
    ∃ s2, s.add_router r p tg = Except.ok s2 ∧
      s2.app = s.app ∧
      s2.root_router.routes = s.root_router.routes ++ r.routes.map
        (fun rt => { rt with
          path := "/api" ++ p ++ rt.path
          tags := s.root_router.tags ++ tg ++ rt.tags }) ∧
      ∃ s3, s2._setup_routers = Except.ok s3 ∧
        s3.app = some (a.include_router s2.root_router) := by
  refine ⟨{ s with root_router := s.root_router.include_router r p tg },
          by simp [Server.add_router, ha], rfl, ?_, ?_⟩
  · simp [APIRouter.include_router, hp]
  · exact ⟨{ s with
             root_router := s.root_router.include_router r p tg
             app := some (a.include_router (s.root_router.include_router r p tg)) },
           by simp [Server._setup_routers, ha], rfl⟩

/-- C9, witness: adding a sample router at path `/v1` to the default
server. -/
theorem c9_add_router_witness :
    ∃ s2, Server.default.add_router sampleRouter "/v1" ["v1"] = Except.ok s2 ∧
      s2.app = Server.default.app ∧
      s2.root_router.routes = Server.default.root_router.routes ++ sampleRouter.routes.map
        (fun rt => { rt with
          path := "/api" ++ "/v1" ++ rt.path
          tags := Server.default.root_router.tags ++ ["v1"] ++ rt.tags }) ∧
      ∃ s3, s2._setup_routers = Except.ok s3 ∧
        s3.app = some ((initialApp "template API"
          "Workflow API for template processing with FastAPI and Celery" "0.1.0"
          false).include_router s2.root_router) :=
  c9_add_router Server.default
    (initialApp "template API"
      "Workflow API for template processing with FastAPI and Celery" "0.1.0" false)
    rfl rfl sampleRouter "/v1" ["v1"]

/-- C10: no operation reassigns the fields set in `__init__`: every
state-changing operation (successful `add_router`, `_setup_routers`,
`start_server`, and the lifespan hooks) preserves `_title`,
`_description`, `_version`, `_debug` and the object identities of `app`
and `root_router`; the getters are pure functions of the server and have
no state to change. -/
theorem c10_fields_stable (s s2 : Server)
    (hstep :
      (∃ r p tg, s.add_router r p tg = Except.ok s2) ∨
      s._setup_routers = Except.ok s2 ∨
      (∃ h p rl ll istr u, s.start_server h p rl ll istr = Except.ok (s2, u)) ∨
      s2 = (s._startup).1 ∨ s2 = (s._shutdown).1 ∨ s2 = (s._lifespan).2.1) :
    s2.configView = s.configView := by
  rcases hstep with ⟨r, p, tg, h⟩ | h | ⟨hh, p, rl, ll, istr, u, h⟩ | rfl | rfl | rfl
  · rw [add_router_ok h]; rfl
  · obtain ⟨a, ha, rfl⟩ := setup_routers_ok h
    simp [Server.configView, ha, FastAPI.include_router]
  · obtain ⟨a, ha, rfl⟩ := start_server_ok h
    simp [Server.configView, ha, FastAPI.include_router]
  · rfl
  · rfl
  · rfl

/-- C10, witness: adding the sample router to the default server preserves
the configuration-and-identity view. -/
theorem c10_fields_stable_witness : addRouterResult.configView = Server.default.configView :=
  c10_fields_stable Server.default addRouterResult (Or.inl ⟨sampleRouter, "/v1", ["v1"], rfl⟩)
